import Mathlib

/-!
Verification of the chatur-credit-insight retrieval pipeline.

This file shallowly embeds the core of the repository: the lexical
similarity scorers and document search of `src/utils/vectorSearch.ts`
(second, enhanced revision), the query mapper of the query-mapper
utility, the card filter of `useCreditCardApi.ts` (enhanced revision),
and the three-tier orchestrator `searchWithRAG` of
`src/hooks/useRAGSearch.ts` (second, enhanced revision).

JavaScript numbers are modelled by `ℚ`; the single source of `NaN`
(the division `x / queryWords.length` when the tokenised query is
empty, since JS `0 / 0 = NaN`) is modelled by an `Option ℚ` result,
`none` standing for `NaN`.  Strings are ASCII in every input the
claims touch, so `String.length` (code points) agrees with the
JS UTF-16 `length`.

Arithmetic is written with kernel-reducible wrappers (`qadd`, `qmul`,
`qdiv`, `qle`, ...) because the `Rat.add`/`Rat.mul`/`Rat.inv` of the library
are `@[irreducible]`; bridge lemmas (`qadd_eq` etc.) prove the wrappers
equal to the ordinary field operations on `ℚ`.
-/

/-! ### Kernel-reducible rational arithmetic -/

/-- Addition on `ℚ`, same value as `· + ·` (see `qadd_eq`). -/
def qadd (a b : ℚ) : ℚ :=
  Rat.normalize (a.num * b.den + b.num * a.den) (a.den * b.den)
    (Nat.mul_ne_zero a.den_nz b.den_nz)

/-- Subtraction on `ℚ`, same value as `· - ·` (see `qsub_eq`). -/
def qsub (a b : ℚ) : ℚ :=
  Rat.normalize (a.num * b.den - b.num * a.den) (a.den * b.den)
    (Nat.mul_ne_zero a.den_nz b.den_nz)

/-- Multiplication on `ℚ`, same value as `· * ·` (see `qmul_eq`). -/
def qmul (a b : ℚ) : ℚ :=
  Rat.normalize (a.num * b.num) (a.den * b.den)
    (Nat.mul_ne_zero a.den_nz b.den_nz)

/-- Division on `ℚ`, same value as `· / ·` (see `qdiv_eq`). -/
def qdiv (a b : ℚ) : ℚ := Rat.divInt (a.num * b.den) (a.den * b.num)

/-- Boolean `≤` on `ℚ` (see `qle_iff`). -/
def qle (a b : ℚ) : Bool := a.num * b.den ≤ b.num * a.den

/-- Boolean `<` on `ℚ` (see `qlt_iff`). -/
def qlt (a b : ℚ) : Bool := a.num * b.den < b.num * a.den

/-- The rational value of a natural number (see `qnat_eq`). -/
def qnat (n : Nat) : ℚ := mkRat n 1

/-- The rational value of an integer (see `qint_eq`). -/
def qint (n : Int) : ℚ := Rat.divInt n 1

/-- JS `Math.min` on (non-`NaN`) numbers. -/
def jsMin (a b : ℚ) : ℚ := if qle a b then a else b

/-- JS `Math.max` on (non-`NaN`) numbers. -/
def jsMax (a b : ℚ) : ℚ := if qle a b then b else a

/-- JS `Math.round` on (non-`NaN`) numbers: `⌊x + 1/2⌋`,
computed as the floor division `(2 num + den) / (2 den)`. -/
def jsRound (x : ℚ) : Int := Int.fdiv (2 * x.num + x.den) (2 * x.den)

theorem qadd_eq (a b : ℚ) : qadd a b = a + b := (Rat.add_def a b).symm

theorem qsub_eq (a b : ℚ) : qsub a b = a - b := (Rat.sub_def a b).symm

theorem qmul_eq (a b : ℚ) : qmul a b = a * b := (Rat.mul_def a b).symm

theorem qdiv_eq (a b : ℚ) : qdiv a b = a / b := (Rat.div_def' a b).symm

theorem qle_iff {a b : ℚ} : qle a b = true ↔ a ≤ b := by
  rw [qle, decide_eq_true_iff, Rat.le_def]

theorem qlt_iff {a b : ℚ} : qlt a b = true ↔ a < b := by
  rw [qlt, decide_eq_true_iff, Rat.lt_def]

theorem qnat_eq (n : Nat) : qnat n = (n : ℚ) := by
  simp [qnat, Rat.mkRat_eq_divInt, Rat.divInt_one]

theorem qint_eq (n : Int) : qint n = (n : ℚ) := by
  rw [qint, Rat.divInt_one]

theorem jsMin_eq (a b : ℚ) : jsMin a b = min a b := by
  rw [jsMin, min_def]
  by_cases h : a ≤ b
  · rw [if_pos (qle_iff.mpr h), if_pos h]
  · rw [if_neg (fun hq => h (qle_iff.mp hq)), if_neg h]

theorem jsMax_eq (a b : ℚ) : jsMax a b = max a b := by
  rw [jsMax, max_def]
  by_cases h : a ≤ b
  · rw [if_pos (qle_iff.mpr h), if_pos h]
  · rw [if_neg (fun hq => h (qle_iff.mp hq)), if_neg h]

/-! ### JS string helpers (on `List Char`) -/

/-- JS `String.prototype.toLowerCase` (ASCII inputs). -/
def strLower (s : String) : String := ⟨s.data.map Char.toLower⟩

/-- Is `p` a prefix of `s` (character lists)? -/
def isPrefOf : List Char → List Char → Bool
  | [], _ => true
  | _ :: _, [] => false
  | a :: as, b :: bs => a == b && isPrefOf as bs

/-- Does the character list `s` contain `p` as a contiguous run? -/
def hasSub (p : List Char) : List Char → Bool
  | [] => isPrefOf p []
  | c :: cs => isPrefOf p (c :: cs) || hasSub p cs

/-- JS `s.includes(p)` (note `s.includes("") = true`). -/
def jsIncludes (s p : String) : Bool := hasSub p.data s.data

/-- JS `s.split(sep)` for a single-character separator:
keeps empty fragments, `"".split(sep) = [""]`. -/
def splitChar (sep : Char) : List Char → List (List Char)
  | [] => [[]]
  | c :: cs =>
    match splitChar sep cs with
    | [] => [[]]
    | g :: gs => if c == sep then [] :: g :: gs else (c :: g) :: gs

/-- JS `s.split` on a single space. -/
def splitSp (s : String) : List String := (splitChar ' ' s.data).map String.mk

/-- ASCII whitespace, the `\s` class on the inputs in question. -/
def isWs (c : Char) : Bool := c == ' ' || c == '\t' || c == '\n' || c == '\r'

/-- JS `s.split(/\s+/)`: splits on runs of whitespace; a leading
(resp. trailing) run contributes a leading (resp. trailing) empty
fragment, and `"".split(/\s+/) = [""]`. -/
def splitRuns (p : Char → Bool) : List Char → List (List Char)
  | [] => [[]]
  | [c] => if p c then [[], []] else [[c]]
  | c :: c' :: cs =>
    match splitRuns p (c' :: cs) with
    | [] => [[]]
    | g :: gs =>
      if p c then (if p c' then g :: gs else [] :: g :: gs)
      else (c :: g) :: gs

/-- JS `s.split(/\s+/)`. -/
def splitWs (s : String) : List String := (splitRuns isWs s.data).map String.mk

/-- JS `s.trim()` (ASCII whitespace). -/
def jsTrim (s : String) : String :=
  ⟨((s.data.dropWhile isWs).reverse.dropWhile isWs).reverse⟩

/-- JS `array.join(sep)` for string arrays. -/
def joinSep (sep : String) : List String → String
  | [] => ""
  | [x] => x
  | x :: y :: xs => x ++ sep ++ joinSep sep (y :: xs)

/-- JS `x || d` for an optional string `x` (`undefined` and `""` are falsy). -/
def orDefault (o : Option String) (d : String) : String :=
  match o with
  | some s => if s == "" then d else s
  | none => d

/-- JS truthiness of an optional string field. -/
def strTruthy (o : Option String) : Bool :=
  match o with
  | some s => s != ""
  | none => false

/-! ### Data model (`vectorSearch.ts`) -/

/-- The `MITC | API` source tag of an indexed chunk. -/
inductive ChunkSource where
  | MITC
  | API
deriving DecidableEq, Repr

/-- The string used as a key for a source tag in the stats object. -/
def ChunkSource.key : ChunkSource → String
  | .MITC => "MITC"
  | .API => "API"

/-- Model of `DocumentChunk.metadata`; the TS field `section` is spelled
`sectionName` because `section` is a Lean keyword. -/
structure ChunkMetadata where
  cardName : Option String := none
  bankName : Option String := none
  sectionName : Option String := none
deriving DecidableEq, Repr

/-- A `DocumentChunk` of the search index (the optional `embedding`
field is never populated by the program and is omitted). -/
structure DocumentChunk where
  id : String
  content : String
  source : ChunkSource
  metadata : ChunkMetadata
deriving DecidableEq, Repr

/-- A `SearchResult`: a chunk paired with its (non-`NaN`) score; results
only ever exist for chunks whose score passed the `> 0.1` floor, so the
similarity is carried as a plain rational. -/
structure SearchResult where
  chunk : DocumentChunk
  similarity : ℚ
deriving DecidableEq, Repr

/-! ### The lexical similarity scorers

`none` models the JS `NaN` produced by `0 / 0` when the tokenised query
(words of length > 2) is empty; in that case the NaN propagates through
every subsequent `+`, `*`, `Math.min` to the returned score. -/

/-- The recurring tokenisation (split on single spaces, keep words of
length > 2)
(applied to an already lower-cased string). -/
def queryTokens (s : String) : List String :=
  (splitSp s).filter (fun w => 2 < w.length)

/-- Model of `computeEnhancedSimilarity` (vectorSearch.ts, first revision,
lines 151–187). -/
def computeEnhancedSimilarity (query content : String)
    (metadata : ChunkMetadata) : Option ℚ :=
  let queryLower := strLower query
  let contentLower := strLower content
  let queryWords := queryTokens queryLower
  if queryWords.length = 0 then none else
  let contentWords := splitSp contentLower
  let intersection := queryWords.filter (fun word => contentWords.contains word)
  let basicScore := qdiv (qnat intersection.length) (qnat queryWords.length)
  let s1 := qmul basicScore (mkRat 3 5)
  let cardBoost : ℚ :=
    if strTruthy metadata.cardName &&
        jsIncludes queryLower (strLower (metadata.cardName.getD "")) then
      mkRat 3 10 else 0
  let bankBoost : ℚ :=
    if strTruthy metadata.bankName &&
        jsIncludes queryLower (strLower (metadata.bankName.getD "")) then
      mkRat 1 5 else 0
  let featureMatches : List Bool :=
    [jsIncludes queryLower "annual fee" && jsIncludes contentLower "annual fee",
     jsIncludes queryLower "reward" &&
       (jsIncludes contentLower "reward" || jsIncludes contentLower "point"),
     jsIncludes queryLower "cashback" && jsIncludes contentLower "cashback",
     jsIncludes queryLower "lounge" && jsIncludes contentLower "lounge",
     jsIncludes queryLower "travel" && jsIncludes contentLower "travel",
     jsIncludes queryLower "interest" && jsIncludes contentLower "interest",
     jsIncludes queryLower "eligibility" && jsIncludes contentLower "eligibility"]
  let featureBoost := qmul (qnat (featureMatches.filter id).length) (mkRat 1 10)
  some (jsMin (qadd (qadd (qadd s1 cardBoost) bankBoost) featureBoost) 1)

/-- Model of `computeAdvancedSimilarity` (vectorSearch.ts, second revision,
lines 349–452). -/
def computeAdvancedSimilarity (query content : String)
    (metadata : ChunkMetadata) : Option ℚ :=
  let queryLower := strLower query
  let contentLower := strLower content
  let queryWords := queryTokens queryLower
  if queryWords.length = 0 then none else
  let phraseBonus : ℚ := if jsIncludes contentLower queryLower then mkRat 1 2 else 0
  let contentWords := splitWs contentLower
  let matchingWords := queryWords.filter (fun word =>
    contentWords.any (fun cw => jsIncludes cw word || jsIncludes word cw))
  let wordMatchScore := qdiv (qnat matchingWords.length) (qnat queryWords.length)
  let s2 := qadd phraseBonus (qmul wordMatchScore (mkRat 2 5))
  let cardNameLower := strLower (metadata.cardName.getD "")
  let cardBoost : ℚ :=
    if strTruthy metadata.cardName &&
        (jsIncludes queryLower cardNameLower || jsIncludes cardNameLower queryLower) then
      mkRat 3 10 else 0
  let bankNameLower := strLower (metadata.bankName.getD "")
  let bankBoost : ℚ :=
    if strTruthy metadata.bankName &&
        (jsIncludes queryLower bankNameLower || jsIncludes bankNameLower queryLower) then
      mkRat 1 5 else 0
  let sectionLower := strLower (metadata.sectionName.getD "")
  let sectionBoost : ℚ :=
    if strTruthy metadata.sectionName &&
        jsIncludes queryLower ((splitSp sectionLower).headD "") then
      mkRat 3 20 else 0
  let featureMatches : List Bool :=
    [(jsIncludes queryLower "annual fee" || jsIncludes queryLower "yearly fee") &&
       (jsIncludes contentLower "annual fee" || jsIncludes contentLower "yearly fee"),
     (jsIncludes queryLower "joining fee" || jsIncludes queryLower "membership fee") &&
       (jsIncludes contentLower "joining fee" || jsIncludes contentLower "membership fee"),
     (jsIncludes queryLower "reward" || jsIncludes queryLower "point") &&
       (jsIncludes contentLower "reward" || jsIncludes contentLower "point" ||
        jsIncludes contentLower "earn"),
     jsIncludes queryLower "cashback" && jsIncludes contentLower "cashback",
     (jsIncludes queryLower "lounge" || jsIncludes queryLower "airport") &&
       (jsIncludes contentLower "lounge" || jsIncludes contentLower "airport"),
     (jsIncludes queryLower "travel" || jsIncludes queryLower "insurance") &&
       (jsIncludes contentLower "travel" || jsIncludes contentLower "insurance"),
     (jsIncludes queryLower "interest" || jsIncludes queryLower "apr") &&
       (jsIncludes contentLower "interest" || jsIncludes contentLower "apr" ||
        jsIncludes contentLower "finance"),
     (jsIncludes queryLower "eligibility" || jsIncludes queryLower "criteria") &&
       (jsIncludes contentLower "eligibility" || jsIncludes contentLower "criteria" ||
        jsIncludes contentLower "qualify"),
     jsIncludes queryLower "visa" && jsIncludes contentLower "visa",
     jsIncludes queryLower "mastercard" && jsIncludes contentLower "mastercard",
     jsIncludes queryLower "rupay" && jsIncludes contentLower "rupay",
     (jsIncludes queryLower "dining" || jsIncludes queryLower "restaurant") &&
       (jsIncludes contentLower "dining" || jsIncludes contentLower "restaurant"),
     (jsIncludes queryLower "fuel" || jsIncludes queryLower "petrol" ||
        jsIncludes queryLower "gas") &&
       (jsIncludes contentLower "fuel" || jsIncludes contentLower "petrol" ||
        jsIncludes contentLower "gas"),
     (jsIncludes queryLower "grocery" || jsIncludes queryLower "supermarket") &&
       (jsIncludes contentLower "grocery" || jsIncludes contentLower "supermarket")]
  let featureBoost := qmul (qnat (featureMatches.filter id).length) (mkRat 2 25)
  let s6 := qadd (qadd (qadd (qadd s2 cardBoost) bankBoost) sectionBoost) featureBoost
  let s7 := if content.length < 50 then qmul s6 (mkRat 1 2) else s6
  let s8 := if 200 < content.length then qmul s7 (mkRat 11 10) else s7
  some (jsMin s8 1)

/-! ### Document index search (`VectorSearchEngine.search`, second
revision, lines 328–346) -/

/-- One step of `documents.map(score).filter(r => r.similarity > 0.1)`:
a chunk yields a result exactly when its score is a number strictly
above the floor (JS `NaN > 0.1` is `false`, so `NaN`-scored chunks are
dropped by the same filter). -/
def scoreFilter (query : String) (d : DocumentChunk) : Option SearchResult :=
  match computeAdvancedSimilarity query d.content d.metadata with
  | some v => if qlt (mkRat 1 10) v then some ⟨d, v⟩ else none
  | none => none

/-- The order used by `sort((a, b) => b.similarity - a.similarity)`:
`a` may stay before `b` iff the comparator is `≤ 0`, i.e.
`b.similarity ≤ a.similarity`. -/
def simDescLe (a b : SearchResult) : Prop := qle b.similarity a.similarity = true

instance : DecidableRel simDescLe := fun a b =>
  instDecidableEqBool (qle b.similarity a.similarity) true

/-- The list `documents.map(score).filter(r => r.similarity > 0.1)` of `search`,
in index (insertion) order. -/
def passingResults (query : String) (docs : List DocumentChunk) :
    List SearchResult :=
  docs.filterMap (scoreFilter query)

/-- Model of `search(query, topK)`: score every chunk, keep scores `> 0.1`,
sort descending (JS `Array.prototype.sort` is stable, and any two
stable sorts for the same total preorder agree, so the stable
insertion sort produces the identical list), take the first `topK`. -/
def search (query : String) (topK : Nat) (docs : List DocumentChunk) :
    List SearchResult :=
  (List.insertionSort simDescLe (passingResults query docs)).take topK

/-- The gate of the document tier in `searchWithRAG`:
`mitcResults.length > 0 && mitcResults[0].similarity > 0.15`. -/
def mitcGate : List SearchResult → Bool
  | [] => false
  | r :: _ => qlt (mkRat 3 20) r.similarity

/-! ### Index state, `clearDocuments`, `getIndexStats` -/

/-- The mutable state of the `VectorSearchEngine` singleton: the ordered
chunk collection plus the (never-populated) `embeddings` map. -/
structure EngineState where
  documents : List DocumentChunk
  embeddings : List (String × List ℚ)
deriving DecidableEq, Repr

/-- Model of `clearDocuments()` (second revision, lines 294–298). -/
def clearDocuments (_s : EngineState) : EngineState := ⟨[], []⟩

/-- Model of `addDocuments(documents)` (second revision, lines 287–291). -/
def addDocuments (s : EngineState) (documents : List DocumentChunk) : EngineState :=
  { s with documents := s.documents ++ documents }

/-- The update `obj[k] = (obj[k] || 0) + 1` on a JS object used as a counter map
(insertion-ordered keys). -/
def bump (m : List (String × Nat)) (k : String) : List (String × Nat) :=
  match m with
  | [] => [(k, 1)]
  | (k', n) :: rest => if k' == k then (k', n + 1) :: rest else (k', n) :: bump rest k

/-- The record returned by `getIndexStats()`. -/
structure IndexStats where
  totalDocuments : Nat
  sources : List (String × Nat)
  banks : List (String × Nat)
  cards : List (String × Nat)
deriving DecidableEq, Repr

/-- Model of `getIndexStats()` (second revision, lines 301–325). -/
def getIndexStats (s : EngineState) : IndexStats :=
  let acc := s.documents.foldl
    (fun (acc : List (String × Nat) × List (String × Nat) × List (String × Nat)) doc =>
      let srcs := bump acc.1 doc.source.key
      let banks :=
        if strTruthy doc.metadata.bankName then
          bump acc.2.1 (doc.metadata.bankName.getD "") else acc.2.1
      let cards :=
        if strTruthy doc.metadata.cardName then
          bump acc.2.2 (doc.metadata.cardName.getD "") else acc.2.2
      (srcs, banks, cards))
    ([], [], [])
  ⟨s.documents.length, acc.1, acc.2.1, acc.2.2⟩

/-! ### Query mapper (`queryMapper` utility) -/

/-- A static `QueryMapping` rule. -/
structure QueryMapping where
  keywords : List String
  category : String
  priority : Nat
  bankNames : Option (List String) := none
  cardTypes : Option (List String) := none
  features : Option (List String) := none
deriving DecidableEq, Repr

/-- The fixed rule table `QueryMapper.mappings`. -/
def mappings : List QueryMapping :=
  [{ keywords := ["annual fee", "yearly fee", "fee structure", "charges"],
     category := "fees", priority := 10,
     features := some ["annual_fee", "joining_fee"] },
   { keywords := ["joining fee", "one time fee", "activation fee"],
     category := "joining_fees", priority := 10,
     features := some ["joining_fee"] },
   { keywords := ["reward", "points", "cashback", "cash back"],
     category := "rewards", priority := 9,
     features := some ["reward_rate", "cashback"] },
   { keywords := ["eligibility", "qualification", "criteria", "requirement"],
     category := "eligibility", priority := 8,
     features := some ["eligibility"] },
   { keywords := ["lounge", "airport lounge", "priority pass"],
     category := "lounge_access", priority := 7,
     features := some ["lounge", "airport"] },
   { keywords := ["travel", "miles", "air miles", "flight"],
     category := "travel_benefits", priority := 7,
     cardTypes := some ["travel"] },
   { keywords := ["premium", "luxury", "elite", "platinum"],
     category := "premium_cards", priority := 6,
     cardTypes := some ["premium", "platinum"] },
   { keywords := ["hdfc", "hdfc bank"],
     category := "bank_specific", priority := 9,
     bankNames := some ["hdfc", "hdfc bank"] },
   { keywords := ["sbi", "state bank"],
     category := "bank_specific", priority := 9,
     bankNames := some ["sbi", "state bank of india"] },
   { keywords := ["icici", "icici bank"],
     category := "bank_specific", priority := 9,
     bankNames := some ["icici", "icici bank"] },
   { keywords := ["axis", "axis bank"],
     category := "bank_specific", priority := 9,
     bankNames := some ["axis", "axis bank"] },
   { keywords := ["regalia", "diners", "millennia"],
     category := "card_specific", priority := 10 }]

/-- Model of `MappingResult.suggestedFilters`. -/
structure SuggestedFilters where
  banks : Option (List String)
  cardTypes : Option (List String)
  features : Option (List String)
deriving DecidableEq, Repr

/-- A `MappingResult`. -/
structure MappingResult where
  category : String
  confidence : ℚ
  matchedKeywords : List String
  suggestedFilters : SuggestedFilters
deriving DecidableEq, Repr

/-- One result of the fuzzy engine (`Fuse.search`): the matched rule,
its score (0 = perfect match, lower is better), and the matched keyword
values (from `includeMatches`, with empty-string defaults). -/
structure FuzzyResult where
  item : QueryMapping
  score : ℚ
  matchValues : List String
deriving DecidableEq, Repr

/-- One row-extension step of the Levenshtein dynamic program. -/
def levRowStep (ca : Char) : List Char → List Nat → Nat → List Nat
  | b :: bs, p0 :: p1 :: ps, d =>
    let dNew := min (min (p1 + 1) (d + 1)) (p0 + (if ca == b then 0 else 1))
    dNew :: levRowStep ca bs (p1 :: ps) dNew
  | _, _, _ => []

/-- Levenshtein edit distance (row-based dynamic program). -/
def lev (a b : List Char) : Nat :=
  (a.foldl
    (fun row ca => (row.headD 0 + 1) :: levRowStep ca b row (row.headD 0 + 1))
    (List.range (b.length + 1))).getLastD 0

/-- Normalized edit distance `lev(a,b) / max(|a|,|b|)` (0 when both
strings are empty). -/
def normDist (a b : String) : ℚ :=
  let m := max a.length b.length
  if m = 0 then 0 else qdiv (qnat (lev a.data b.data)) (qnat m)

/-- The best (smallest normalized distance) keyword of a rule for a
pattern, with the keyword that attains it. -/
def bestKeyword (pattern : String) (m : QueryMapping) : Option (ℚ × String) :=
  m.keywords.foldl
    (fun acc kw =>
      let d := normDist (strLower pattern) (strLower kw)
      match acc with
      | none => some (d, kw)
      | some (d', kw') => if qlt d d' then some (d, kw) else some (d', kw'))
    none

/-- Ascending-score order for fuzzy results. -/
def fuzzyLe (a b : FuzzyResult) : Prop := qle a.score b.score = true

instance : DecidableRel fuzzyLe := fun a b =>
  instDecidableEqBool (qle a.score b.score) true

/-- Modelled from the spec: the repository delegates fuzzy keyword
matching to the external Fuse.js library (`new Fuse(this.mappings,
{ keys: ["keywords"], threshold: 0.4, includeScore: true,
includeMatches: true })`), whose internal Bitap algorithm is not part
of this repository.  Per spec §4.3 step 3 and §9 the engine is
modelled as a normalized-edit-distance search: a rule matches when its
best keyword is within normalized Levenshtein distance 0.4 (the
`threshold` of the source) of the pattern; the reported score is that best
distance, the reported match value is the best keyword, and results
come back sorted by ascending score. -/
def fuseSearch (pattern : String) : List FuzzyResult :=
  List.insertionSort fuzzyLe
    (mappings.filterMap (fun m =>
      match bestKeyword pattern m with
      | some (d, kw) => if qle d (mkRat 2 5) then some ⟨m, d, [kw]⟩ else none
      | none => none))

/-- An `allMatches` entry of `mapQuery`. -/
structure MatchEntry where
  mapping : QueryMapping
  confidence : ℚ
  matchedKeywords : List String
deriving DecidableEq, Repr

/-- JS `Map.prototype.set`: replaces the value in place when the key is
present, appends otherwise (insertion-ordered keys). -/
def mapSet (m : List (String × MatchEntry)) (k : String) (e : MatchEntry) :
    List (String × MatchEntry) :=
  match m with
  | [] => [(k, e)]
  | (k', e') :: rest =>
    if k' == k then (k', e) :: rest else (k', e') :: mapSet rest k e

/-- JS `Map.prototype.get` (with `has` given by `isSome`). -/
def mapGet (m : List (String × MatchEntry)) (k : String) : Option MatchEntry :=
  match m with
  | [] => none
  | (k', e') :: rest => if k' == k then some e' else mapGet rest k

/-- The order of `sort((a, b) => priorityDiff !== 0 ? priorityDiff :
b.confidence - a.confidence)` with `priorityDiff = b.priority -
a.priority`: `a` may stay before `b` iff the comparator is `≤ 0`. -/
def entryLeB (a b : MatchEntry) : Bool :=
  decide (b.mapping.priority < a.mapping.priority) ||
    (b.mapping.priority == a.mapping.priority && qle b.confidence a.confidence)

/-- The relation of `entryLeB`, for the stable sort. -/
def entryLe (a b : MatchEntry) : Prop := entryLeB a b = true

instance : DecidableRel entryLe := fun a b => instDecidableEqBool (entryLeB a b) true

/-- The `allMatches` entry produced for a direct-matched rule:
matched keywords by substring containment, confidence
`Math.min(0.9, (matchedKeywords.length / mapping.keywords.length)
* 0.8 + 0.1)`. -/
def directEntry (queryLower : String) (m : QueryMapping) : MatchEntry :=
  let matchedKeywords := m.keywords.filter (fun kw =>
    jsIncludes queryLower (strLower kw))
  { mapping := m
    confidence := jsMin (mkRat 9 10)
      (qadd
        (qmul (qdiv (qnat matchedKeywords.length) (qnat m.keywords.length))
          (mkRat 4 5))
        (mkRat 1 10))
    matchedKeywords := matchedKeywords }

/-- The direct-match pass of `mapQuery`: filter the rules whose keyword
occurs in the query, then `Map.set` the entry of each. -/
def directPass (queryLower : String) : List (String × MatchEntry) :=
  (mappings.filter (fun m =>
    m.keywords.any (fun kw => jsIncludes queryLower (strLower kw)))).foldl
    (fun acc m => mapSet acc m.category (directEntry queryLower m)) []

/-- One step of the fuzzy pass of `mapQuery`.
`if (result.score && result.score < 0.6)`: a score of exactly 0 is
falsy in JS, so perfect fuzzy matches are skipped; an entry replaces a
previously recorded one for the same category only when its confidence
`1 - score` is strictly higher. -/
def fuzzyStep (acc : List (String × MatchEntry)) (r : FuzzyResult) :
    List (String × MatchEntry) :=
  if decide (r.score ≠ (0:ℚ)) && qlt r.score (mkRat 3 5) then
    let confidence := qsub 1 r.score
    match mapGet acc r.item.category with
    | none => mapSet acc r.item.category ⟨r.item, confidence, r.matchValues⟩
    | some e =>
      if qlt e.confidence confidence then
        mapSet acc r.item.category ⟨r.item, confidence, r.matchValues⟩
      else acc
  else acc

/-- The fuzzy pass of `mapQuery`. -/
def fuzzyPass (acc : List (String × MatchEntry)) (rs : List FuzzyResult) :
    List (String × MatchEntry) :=
  rs.foldl fuzzyStep acc

/-- Model of `QueryMapper.mapQuery`, parameterised by the fuzzy engine `fuse`
(the repository passes the Fuse.js instance; concrete claims
instantiate `fuse` with the spec-modelled `fuseSearch`). -/
def mapQuery (fuse : String → List FuzzyResult) (query : String) : MappingResult :=
  let queryLower := strLower query
  let queryWords := queryTokens queryLower
  let fuzzyResults := fuse (joinSep " " queryWords)
  let allMatches := fuzzyPass (directPass queryLower) fuzzyResults
  match (List.insertionSort entryLe (allMatches.map Prod.snd)).head? with
  | some best =>
    { category := best.mapping.category
      confidence := best.confidence
      matchedKeywords := best.matchedKeywords
      suggestedFilters :=
        { banks := best.mapping.bankNames
          cardTypes := best.mapping.cardTypes
          features := best.mapping.features } }
  | none =>
    { category := "general"
      confidence := mkRat 1 10
      matchedKeywords := []
      suggestedFilters := { banks := none, cardTypes := none, features := none } }

/-! ### Card-data adapter (`useCreditCardApi`, enhanced revision) -/

/-- A card record of the external catalog service. -/
structure CreditCard where
  card_name : Option String := none
  annual_fee : Option String := none
  key_features : Option String := none
  reward_rate : Option String := none
  eligibility : Option String := none
  bank_name : Option String := none
  card_network : Option String := none
  joining_fee : Option String := none
  benefits : Option String := none
deriving DecidableEq, Repr

/-- The searchable text of a card: the six fields (empty-string
defaults) joined with single spaces, lower-cased. -/
def searchableText (card : CreditCard) : String :=
  strLower (joinSep " "
    [card.card_name.getD "", card.bank_name.getD "", card.key_features.getD "",
     card.benefits.getD "", card.reward_rate.getD "", card.eligibility.getD ""])

/-- The fixed common-word list of the client-side filter. -/
def commonWords : List String :=
  ["card", "credit", "bank", "fee", "reward", "cashback", "travel", "lounge"]

/-- The client-side keyword filter of `searchCards` (the
`cards.filter(...)` body).  Note that when the query contains a common
word, a card passes iff its searchable text is non-empty — and the
join of six fields always has length ≥ 5, so every card
passes. -/
def basicFilter (query : String) (cards : List CreditCard) : List CreditCard :=
  let queryLower := strLower query
  cards.filter (fun card =>
    let st := searchableText card
    let hasCommonWord := commonWords.any (fun w => jsIncludes queryLower w)
    if hasCommonWord then decide (0 < st.length)
    else
      let queryWords := queryTokens queryLower
      queryWords.any (fun w => jsIncludes st w))

/-- Model of `searchCards` (enhanced revision, lines 64–109): the post-fetch,
client-side portion.  The network fetch, the response-shape handling
and the catch-all error handler (which returns `[]`) are I/O outside
the embedding; `cards` is the card list extracted from the raw
response. -/
def searchCards (query : String) (cards : List CreditCard) : List CreditCard :=
  if query ≠ "" ∧ 2 < (jsTrim query).length ∧ 0 < cards.length then
    let filteredCards := basicFilter query cards
    if filteredCards.length < 3 ∧ 3 < cards.length then cards.take 10
    else filteredCards.take 10
  else cards.take 10

/-! ### The RAG orchestrator (`useRAGSearch.ts`, second revision,
lines 269–369) -/

/-- The `source` tag of a `RAGResponse`. -/
inductive ResponseSource where
  | API
  | MITC
  | OpenAI
deriving DecidableEq, Repr

/-- The `mappingInfo` payload of a `RAGResponse`. -/
structure MappingInfo where
  category : String
  matchedKeywords : List String
  confidence : ℚ
deriving DecidableEq, Repr

/-- A generative-adapter (`queryOpenAI`) response. -/
structure OpenAIResponse where
  text : String
  confidence : ℚ
deriving DecidableEq, Repr

/-- The unified `RAGResponse`. -/
structure RAGResponse where
  text : String
  source : ResponseSource
  confidence : ℚ
  sourceDocuments : Option (List SearchResult) := none
  data : Option (List CreditCard) := none
  mappingInfo : Option MappingInfo := none
deriving DecidableEq, Repr

/-- JS `s.substring(0, n)`. -/
def substrTo (s : String) (n : Nat) : String := ⟨s.data.take n⟩

/-- One entry of the multi-card listing of `formatApiResponse`. -/
def formatApiCardLine (idx : Nat) (card : CreditCard) : String :=
  "**" ++ toString (idx + 1) ++ ". " ++ orDefault card.card_name "Credit Card" ++
  "**\n   🏦 Bank: " ++ orDefault card.bank_name "N/A" ++
  "\n   💳 Annual Fee: " ++ orDefault card.annual_fee "N/A" ++
  "\n   ✨ " ++
  (if strTruthy card.key_features then
    substrTo (card.key_features.getD "") 120 ++ "..."
   else "Features not specified")

/-- Model of `formatApiResponse` (second revision, lines 371–380). -/
def formatApiResponse (cards : List CreditCard) (_query : String) : String :=
  let header := "🔹 **Source: BankKaro Credit Card Database**\n\n"
  match cards with
  | [card] =>
    header ++ "I found detailed information about the **" ++
    orDefault card.card_name "credit card" ++ "** from " ++
    orDefault card.bank_name "the bank" ++ ".\n\n🏦 **Bank**: " ++
    orDefault card.bank_name "Not specified" ++ "\n💳 **Annual Fee**: " ++
    orDefault card.annual_fee "Not specified" ++ "\n✨ **Key Features**: " ++
    orDefault card.key_features "Not specified" ++ "\n🎁 **Rewards**: " ++
    orDefault card.reward_rate "Not specified" ++ "\n✅ **Eligibility**: " ++
    orDefault card.eligibility "Not specified"
  | _ =>
    header ++ "I found " ++ toString cards.length ++
    " credit cards that match your query:\n\n" ++
    joinSep "\n\n" ((cards.take 4).enum.map (fun p => formatApiCardLine p.1 p.2)) ++
    "\n\n*Showing top " ++ toString (min cards.length 4) ++
    " results. View card details below for complete information.*"

/-- Model of `formatMITCResponse` (second revision, lines 382–385);
`Math.round(results[0]?.similarity * 100) || 0` is `0` for an empty
result list (`NaN || 0` in JS). -/
def formatMITCResponse (content : String) (_query : String)
    (results : List SearchResult) : String :=
  let confidenceScore : Int :=
    match results with
    | [] => 0
    | r :: _ => jsRound (qmul r.similarity 100)
  "📄 **Source: MITC Documents** (" ++ toString confidenceScore ++
  "% match)\n\nBased on official credit card terms and conditions:\n\n" ++
  content ++
  "\n\n*This information is sourced from official MITC documentation and may be subject to change. Please verify with the bank for current terms.*"

/-- The fixed apology text of the `catch` block. -/
def apologyText : String :=
  "I\x27m experiencing some technical difficulties. Please try rephrasing your question or contact support if the issue persists."

/-- The fixed response returned by the `catch` block of
`searchWithRAG`. -/
def apologyResponse : RAGResponse :=
  { text := apologyText, source := .OpenAI, confidence := 20 }

/-- STEP 3 of `searchWithRAG` (lines 342–359): the generative tier.
A rejected `queryOpenAI` call reaches the surrounding `catch`, giving
the apology response. -/
def generativeTier (mi : MappingInfo)
    (openAIOutcome : Except String OpenAIResponse) : RAGResponse :=
  match openAIOutcome with
  | .error _ => apologyResponse
  | .ok r =>
    { text := "🤖 **AI Assistant Response** - Based on general knowledge about credit cards:\n\n" ++
        r.text ++
        "\n\n*Note: For the most current information, please check with the respective banks directly.*"
      source := .OpenAI
      confidence := jsMax r.confidence 40
      mappingInfo := some mi }

/-- Model of `searchWithRAG` (second revision, lines 269–369).  The two external
adapters are passed as the outcomes of their calls for this query; an
`Except.error` models a rejected promise.  The source wraps the tier
sequence in `try`/`catch`, so a rejection of either adapter call is
turned into the fixed apology response and the function itself always
returns a `RAGResponse` (no exception propagates to the caller, which
the total return type makes structural). -/
def searchWithRAG (query : String) (docs : List DocumentChunk)
    (apiOutcome : Except String (List CreditCard))
    (openAIOutcome : Except String OpenAIResponse) : RAGResponse :=
  let queryMapping := mapQuery fuseSearch query
  let mi : MappingInfo :=
    { category := queryMapping.category
      matchedKeywords := queryMapping.matchedKeywords
      confidence := queryMapping.confidence }
  match apiOutcome with
  | .error _ => apologyResponse
  | .ok apiResults =>
    if 0 < apiResults.length then
      { text := formatApiResponse apiResults query
        source := .API
        confidence := 88
        data := some (apiResults.take 6)
        mappingInfo := some mi }
    else
      match search query 4 docs with
      | r :: rs =>
        if qlt (mkRat 3 20) r.similarity then
          let relevantContent := joinSep "\n\n" (((r :: rs).take 3).map (fun x =>
            "**" ++ orDefault x.chunk.metadata.cardName "Document" ++ "** (" ++
            orDefault x.chunk.metadata.bankName "Bank" ++ "): " ++ x.chunk.content))
          { text := formatMITCResponse relevantContent query (r :: rs)
            source := .MITC
            confidence := qint (jsRound (qmul r.similarity 100))
            sourceDocuments := some (r :: rs)
            mappingInfo := some mi }
        else generativeTier mi openAIOutcome
      | [] => generativeTier mi openAIOutcome

/-! ### General lemmas about the embedding -/

theorem mkRat_eq (n : Int) (d : Nat) : mkRat n d = (n : ℚ) / (d : ℚ) := by
  rw [Rat.mkRat_eq_divInt, Rat.divInt_eq_div]
  norm_num

theorem qle_of_dec {a b : ℚ} (h : qle a b = true) : a ≤ b := qle_iff.mp h

theorem qlt_of_dec {a b : ℚ} (h : qlt a b = true) : a < b := qlt_iff.mp h

theorem qadd_nonneg {a b : ℚ} (ha : 0 ≤ a) (hb : 0 ≤ b) : 0 ≤ qadd a b := by
  rw [qadd_eq]; exact add_nonneg ha hb

theorem qmul_nonneg {a b : ℚ} (ha : 0 ≤ a) (hb : 0 ≤ b) : 0 ≤ qmul a b := by
  rw [qmul_eq]; exact mul_nonneg ha hb

theorem qdiv_qnat_nonneg (m n : Nat) : 0 ≤ qdiv (qnat m) (qnat n) := by
  rw [qdiv_eq, qnat_eq, qnat_eq]
  positivity

theorem mkRat_nonneg (n d : Nat) : 0 ≤ mkRat (n : Int) d := by
  rw [mkRat_eq]
  positivity

theorem qite_nonneg (c : Prop) [Decidable c] {a b : ℚ} (ha : 0 ≤ a) (hb : 0 ≤ b) :
    0 ≤ if c then a else b := by
  by_cases h : c
  · rwa [if_pos h]
  · rwa [if_neg h]

theorem qnat_nonneg (n : Nat) : 0 ≤ qnat n := by
  rw [qnat_eq]; positivity

/-- The content-length adjustments at the end of
`computeAdvancedSimilarity` (`* 0.5` for short contents, `* 1.1` for
long ones) preserve nonnegativity. -/
theorem score_tail_nonneg {s6 : ℚ} (h6 : 0 ≤ s6)
    (n1 n2 : Prop) [Decidable n1] [Decidable n2] :
    0 ≤ (if n2 then qmul (if n1 then qmul s6 (mkRat 1 2) else s6) (mkRat 11 10)
         else if n1 then qmul s6 (mkRat 1 2) else s6) := by
  have h7 : 0 ≤ (if n1 then qmul s6 (mkRat 1 2) else s6) :=
    qite_nonneg _ (qmul_nonneg h6 (mkRat_nonneg 1 2)) h6
  exact qite_nonneg _ (qmul_nonneg h7 (mkRat_nonneg 11 10)) h7

/-- The value `jsMin x 1` (the final `Math.min(similarity, 1.0)` of the scorers) lands
in `[0, 1]` as soon as `x` is nonnegative. -/
theorem jsMin_one_mem_unit {x : ℚ} (hx : 0 ≤ x) :
    0 ≤ jsMin x 1 ∧ jsMin x 1 ≤ 1 := by
  rw [jsMin_eq]
  exact ⟨le_min hx zero_le_one, min_le_right _ _⟩

/-- Every element of the floor-filtered result list carries the exact
score of its chunk, and that score is strictly above the `0.1` floor. -/
theorem mem_passingResults {query : String} {docs : List DocumentChunk}
    {r : SearchResult} (hr : r ∈ passingResults query docs) :
    r.chunk ∈ docs ∧
    computeAdvancedSimilarity query r.chunk.content r.chunk.metadata =
      some r.similarity ∧
    (1 / 10 : ℚ) < r.similarity := by
  rw [passingResults, List.mem_filterMap] at hr
  obtain ⟨d, hd, hf⟩ := hr
  rw [scoreFilter] at hf
  rcases hc : computeAdvancedSimilarity query d.content d.metadata with _ | v
  · rw [hc] at hf; cases hf
  · rw [hc] at hf
    dsimp only at hf
    by_cases hv : qlt (mkRat 1 10) v = true
    · rw [if_pos hv] at hf
      cases hf
      have := qlt_of_dec hv
      rw [mkRat_eq] at this
      norm_num at this
      exact ⟨hd, hc, by norm_num [this]⟩
    · rw [if_neg hv] at hf; cases hf

instance : IsTotal SearchResult simDescLe :=
  ⟨fun a b => by
    rw [simDescLe, simDescLe, qle_iff, qle_iff]
    exact le_total b.similarity a.similarity⟩

instance : IsTrans SearchResult simDescLe :=
  ⟨fun a b c hab hbc => by
    rw [simDescLe, qle_iff] at *
    exact le_trans hbc hab⟩

/-- Inserting `x` into `l` does not disturb the sublist selected by a
predicate `p` that holds only for elements tied with `x`. -/
theorem filter_orderedInsert (p : SearchResult → Bool) (x : SearchResult)
    (l : List SearchResult) (h : p x = true → ∀ y, p y = true → simDescLe x y) :
    (List.orderedInsert simDescLe x l).filter p =
      if p x then x :: l.filter p else l.filter p := by
  induction l with
  | nil =>
    cases hpx : p x <;> simp [List.orderedInsert, List.filter, hpx]
  | cons b t ih =>
    rw [List.orderedInsert]
    by_cases hxb : simDescLe x b
    · rw [if_pos hxb]
      cases hpx : p x <;> simp [List.filter_cons, hpx]
    · rw [if_neg hxb]
      cases hpb : p b with
      | true =>
        have hpx : p x = false := by
          cases hpx : p x with
          | false => rfl
          | true => exact absurd (h hpx b hpb) hxb
        simp [List.filter_cons, hpb, hpx, ih]
      | false =>
        cases hpx : p x <;> simp [List.filter_cons, hpb, hpx, ih]

/-- The stable insertion sort leaves the sublist of elements tied at
any fixed score unchanged: the stability of the JS sort. -/
theorem filter_insertionSort (p : SearchResult → Bool)
    (h : ∀ x y, p x = true → p y = true → simDescLe x y) (l : List SearchResult) :
    (List.insertionSort simDescLe l).filter p = l.filter p := by
  induction l with
  | nil => rfl
  | cons a t ih =>
    rw [List.insertionSort, filter_orderedInsert p a _ (fun hpa y hpy => h a y hpa hpy)]
    cases hpa : p a <;> simp [List.filter_cons, hpa, ih]

/-- A fuzzy result whose score is falsy (0) or not below `0.6` leaves
the match map unchanged. -/
theorem fuzzyStep_skip (acc : List (String × MatchEntry)) (r : FuzzyResult)
    (h : ¬(r.score ≠ (0:ℚ) ∧ qlt r.score (mkRat 3 5) = true)) :
    fuzzyStep acc r = acc := by
  rw [fuzzyStep, if_neg]
  intro hcond
  rw [Bool.and_eq_true, decide_eq_true_iff] at hcond
  exact h hcond

/-- If no fuzzy result passes the score gate, the fuzzy pass adds
nothing to an empty match map. -/
theorem fuzzyPass_nil :
    ∀ rs : List FuzzyResult,
      (∀ r ∈ rs, ¬(r.score ≠ (0:ℚ) ∧ qlt r.score (mkRat 3 5) = true)) →
      fuzzyPass [] rs = []
  | [], _ => rfl
  | r :: t, h => by
    rw [fuzzyPass, List.foldl_cons, fuzzyStep_skip _ _ (h r (by simp))]
    exact fuzzyPass_nil t (fun x hx => h x (by simp [hx]))

/-- When the API tier is empty and the document gate fails,
`searchWithRAG` lands in the generative tier. -/
theorem rag_to_generative (query : String) (docs : List DocumentChunk)
    (o : Except String OpenAIResponse)
    (hmitc : mitcGate (search query 4 docs) = false) :
    searchWithRAG query docs (.ok []) o =
      generativeTier
        { category := (mapQuery fuseSearch query).category
          matchedKeywords := (mapQuery fuseSearch query).matchedKeywords
          confidence := (mapQuery fuseSearch query).confidence } o := by
  rcases hs : search query 4 docs with _ | ⟨r, rs⟩
  · simp [searchWithRAG, hs]
  · rw [hs, mitcGate] at hmitc
    simp [searchWithRAG, hs, hmitc]

/-! ### The claims -/

set_option maxRecDepth 100000 in
set_option maxHeartbeats 1000000 in
/-- C1 (counterexample): the Scorer does **not** return a value in
`[0,1]` for every input: a query whose tokenisation (words of length
> 2) is empty makes `matchingWords.length / queryWords.length` the JS
division `0 / 0 = NaN`, which propagates to the returned score
(modelled as `none`) — and `NaN` is neither `≥ 0` nor `≤ 1`.  Both
scorers misbehave on the query `"ab"`. -/
theorem similarity_nan_counterexample :
    computeAdvancedSimilarity "ab" "some content here" {} = none ∧
    computeEnhancedSimilarity "ab" "some content here" {} = none := by
  exact ⟨by decide, by decide⟩

/-- C1 (amended): for every query whose tokenisation is *nonempty*,
every content string, and every metadata record, both scorers
(`computeAdvancedSimilarity` and `computeEnhancedSimilarity`) return a
numeric value in the closed interval `[0,1]`. -/
theorem similarity_mem_unit_interval (query content : String)
    (metadata : ChunkMetadata)
    (h : ¬(queryTokens (strLower query)).length = 0) :
    (∃ v, computeAdvancedSimilarity query content metadata = some v ∧
      0 ≤ v ∧ v ≤ 1) ∧
    (∃ v, computeEnhancedSimilarity query content metadata = some v ∧
      0 ≤ v ∧ v ≤ 1) := by
  constructor
  · simp only [computeAdvancedSimilarity]
    rw [if_neg h]
    refine ⟨_, rfl, ?_, ?_⟩
    · exact (jsMin_one_mem_unit (score_tail_nonneg
        (qadd_nonneg (qadd_nonneg (qadd_nonneg (qadd_nonneg
          (qadd_nonneg (qite_nonneg _ (mkRat_nonneg 1 2) le_rfl)
            (qmul_nonneg (qdiv_qnat_nonneg _ _) (mkRat_nonneg 2 5)))
          (qite_nonneg _ (mkRat_nonneg 3 10) le_rfl))
          (qite_nonneg _ (mkRat_nonneg 1 5) le_rfl))
          (qite_nonneg _ (mkRat_nonneg 3 20) le_rfl))
          (qmul_nonneg (qnat_nonneg _) (mkRat_nonneg 2 25))) _ _)).1
    · exact (jsMin_one_mem_unit (score_tail_nonneg
        (qadd_nonneg (qadd_nonneg (qadd_nonneg (qadd_nonneg
          (qadd_nonneg (qite_nonneg _ (mkRat_nonneg 1 2) le_rfl)
            (qmul_nonneg (qdiv_qnat_nonneg _ _) (mkRat_nonneg 2 5)))
          (qite_nonneg _ (mkRat_nonneg 3 10) le_rfl))
          (qite_nonneg _ (mkRat_nonneg 1 5) le_rfl))
          (qite_nonneg _ (mkRat_nonneg 3 20) le_rfl))
          (qmul_nonneg (qnat_nonneg _) (mkRat_nonneg 2 25))) _ _)).2
  · simp only [computeEnhancedSimilarity]
    rw [if_neg h]
    refine ⟨_, rfl, ?_, ?_⟩
    · exact (jsMin_one_mem_unit
        (qadd_nonneg (qadd_nonneg (qadd_nonneg
          (qmul_nonneg (qdiv_qnat_nonneg _ _) (mkRat_nonneg 3 5))
          (qite_nonneg _ (mkRat_nonneg 3 10) le_rfl))
          (qite_nonneg _ (mkRat_nonneg 1 5) le_rfl))
          (qmul_nonneg (qnat_nonneg _) (mkRat_nonneg 1 10)))).1
    · exact (jsMin_one_mem_unit
        (qadd_nonneg (qadd_nonneg (qadd_nonneg
          (qmul_nonneg (qdiv_qnat_nonneg _ _) (mkRat_nonneg 3 5))
          (qite_nonneg _ (mkRat_nonneg 3 10) le_rfl))
          (qite_nonneg _ (mkRat_nonneg 1 5) le_rfl))
          (qmul_nonneg (qnat_nonneg _) (mkRat_nonneg 1 10)))).2

/-- C1 witness: the amended theorem at the concrete query `"fee"`. -/
theorem similarity_mem_unit_interval_witness :
    (∃ v, computeAdvancedSimilarity "fee" "annual fee is low" {} = some v ∧
      0 ≤ v ∧ v ≤ 1) ∧
    (∃ v, computeEnhancedSimilarity "fee" "annual fee is low" {} = some v ∧
      0 ≤ v ∧ v ≤ 1) :=
  similarity_mem_unit_interval "fee" "annual fee is low" {} (by decide)

/-- C8: after `clearDocuments()`, `getIndexStats()` reports zero
documents and empty source/bank/card breakdowns, and `clearDocuments`
is idempotent. -/
theorem clearDocuments_stats (s : EngineState) :
    getIndexStats (clearDocuments s) =
      { totalDocuments := 0, sources := [], banks := [], cards := [] } ∧
    clearDocuments (clearDocuments s) = clearDocuments s :=
  ⟨rfl, rfl⟩

/-- C10: whenever the card service returns more than 3 cards for a
query of trimmed length > 2 but the client-side keyword filter keeps
fewer than 3 of them, `searchCards` abandons the filter and returns
the first 10 cards of the raw unfiltered response — in particular it
is never empty in that situation. -/
theorem searchCards_filter_fallback (query : String) (cards : List CreditCard)
    (hq : 2 < (jsTrim query).length) (hcards : 3 < cards.length)
    (hfilter : (basicFilter query cards).length < 3) :
    searchCards query cards = cards.take 10 ∧ searchCards query cards ≠ [] := by
  have hne : query ≠ "" := by
    intro hq0
    rw [hq0] at hq
    simp [jsTrim] at hq
  have hc0 : 0 < cards.length := by omega
  have heq : searchCards query cards = cards.take 10 := by
    rw [searchCards, if_pos ⟨hne, hq, hc0⟩]
    dsimp only
    rw [if_pos ⟨hfilter, hcards⟩]
  refine ⟨heq, ?_⟩
  rw [heq]
  intro hnil
  have hlen := congrArg List.length hnil
  rw [List.length_take, List.length_nil] at hlen
  omega

/-- C10 witness: four cards with no searchable fields and the query
`"xyz"` (no common word, no keyword hit). -/
theorem searchCards_filter_fallback_witness :
    searchCards "xyz" [{}, {}, {}, {}] = List.take 10 [{}, {}, {}, {}] ∧
    searchCards "xyz" ([{}, {}, {}, {}] : List CreditCard) ≠ [] :=
  searchCards_filter_fallback "xyz" [{}, {}, {}, {}]
    (by decide) (by decide) (by decide)

/-- The first rule of the table (the fee rule), for concrete
instantiations. -/
def feesRule : QueryMapping :=
  { keywords := ["annual fee", "yearly fee", "fee structure", "charges"],
    category := "fees", priority := 10,
    features := some ["annual_fee", "joining_fee"] }

set_option maxRecDepth 400000 in
set_option maxHeartbeats 2000000 in
/-- C6: the query `"annual fee"` maps to category `"fees"` with
`"annual fee"` among the matched keywords and confidence
`0.3 > 0.1`; and in general the entry of every direct-matched rule carries
confidence `min(0.9, (matchedKeywordCount / totalKeywordsInRule) * 0.8
+ 0.1)`.  (The fuzzy engine is the spec-modelled `fuseSearch`; on this
query it reports the fee rule with score 0, which the `result.score &&`
truthiness check then skips.) -/
theorem mapQuery_annual_fee :
    (mapQuery fuseSearch "annual fee").category = "fees" ∧
    "annual fee" ∈ (mapQuery fuseSearch "annual fee").matchedKeywords ∧
    (1/10 : ℚ) < (mapQuery fuseSearch "annual fee").confidence ∧
    ∀ (queryLower : String), ∀ m ∈ mappings,
      (directEntry queryLower m).confidence =
        min (9/10 : ℚ)
          ((((m.keywords.filter (fun kw =>
              jsIncludes queryLower (strLower kw))).length : ℚ) /
            (m.keywords.length : ℚ)) * (8/10) + 1/10) := by
  refine ⟨by decide, by decide, ?_, ?_⟩
  · have hc : (mapQuery fuseSearch "annual fee").confidence = mkRat 3 10 := by decide
    rw [hc, mkRat_eq]
    norm_num
  · intro ql m _hm
    rw [directEntry]
    dsimp only
    rw [jsMin_eq, qadd_eq, qmul_eq, qdiv_eq, qnat_eq, qnat_eq, mkRat_eq,
      mkRat_eq, mkRat_eq]
    norm_num

set_option maxRecDepth 400000 in
/-- C6 witness: the general confidence formula applied to the fee rule
and the query `"annual fee"` (1 of 4 keywords matched, so the
confidence of the entry is `min(0.9, 1/4 * 0.8 + 0.1) = 0.3`). -/
theorem mapQuery_annual_fee_witness :
    (directEntry "annual fee" feesRule).confidence =
      min (9/10 : ℚ)
        ((((feesRule.keywords.filter (fun kw =>
            jsIncludes "annual fee" (strLower kw))).length : ℚ) /
          (feesRule.keywords.length : ℚ)) * (8/10) + 1/10) :=
  mapQuery_annual_fee.2.2.2 "annual fee" feesRule (by decide)

/-- C7: a query in which no rule keyword occurs as a substring and for
which the fuzzy engine reports no result passing the score gate
(truthy and `< 0.6`) maps to the fallback result: category
`"general"`, confidence `0.1`, no matched keywords, and no suggested
bank/card-type/feature filters. -/
theorem mapQuery_fallback (fuse : String → List FuzzyResult) (query : String)
    (hdirect : ∀ m ∈ mappings, ∀ kw ∈ m.keywords,
      jsIncludes (strLower query) (strLower kw) = false)
    (hfuzzy : ∀ r ∈ fuse (joinSep " " (queryTokens (strLower query))),
      ¬(r.score ≠ (0:ℚ) ∧ qlt r.score (mkRat 3 5) = true)) :
    mapQuery fuse query =
      { category := "general", confidence := 1/10, matchedKeywords := [],
        suggestedFilters := { banks := none, cardTypes := none, features := none } } := by
  have hdm : directPass (strLower query) = [] := by
    rw [directPass]
    have hfe : mappings.filter (fun m =>
        m.keywords.any (fun kw => jsIncludes (strLower query) (strLower kw))) = [] := by
      rw [List.filter_eq_nil_iff]
      intro m hm hany
      rw [List.any_eq_true] at hany
      obtain ⟨kw, hkw, hinc⟩ := hany
      rw [hdirect m hm kw hkw] at hinc
      cases hinc
    rw [hfe]
    rfl
  have hfz : fuzzyPass (directPass (strLower query))
      (fuse (joinSep " " (queryTokens (strLower query)))) = [] := by
    rw [hdm]
    exact fuzzyPass_nil _ hfuzzy
  simp only [mapQuery, hfz]
  rw [show (mkRat 1 10 : ℚ) = 1/10 from by rw [mkRat_eq]; norm_num]
  rfl

/-- C7 witness: the query `"xyz"` with an empty fuzzy report. -/
theorem mapQuery_fallback_witness :
    mapQuery (fun _ => []) "xyz" =
      { category := "general", confidence := 1/10, matchedKeywords := [],
        suggestedFilters := { banks := none, cardTypes := none, features := none } } :=
  mapQuery_fallback (fun _ => []) "xyz" (by decide) (by intro r hr; cases hr)

/-- A chunk whose advanced score for the query `"hello"` is exactly
`0.4`: no phrase hit, full (1 of 1) token overlap (`"hello"` contains
the content word `"hell"`), no metadata or feature boosts, and a
content length of 54 (no length adjustment). -/
def testDoc : DocumentChunk :=
  { id := "mitc-test-1"
    content := "hell zzzz zzzz zzzz zzzz zzzz zzzz zzzz zzzz zzzz zzzz"
    source := .MITC
    metadata := {} }

/-- C2: when the card adapter returns zero records and the document
search returns a non-empty list whose top similarity is `0.4`,
`searchWithRAG` answers from the document tier: source `MITC`,
confidence `round(0.4 * 100) = 40`, and the ranked results attached as
`sourceDocuments` (length ≥ 1). -/
theorem rag_document_tier (query : String) (docs : List DocumentChunk)
    (o : Except String OpenAIResponse) (r : SearchResult) (rs : List SearchResult)
    (hsearch : search query 4 docs = r :: rs) (hsim : r.similarity = 2/5) :
    (searchWithRAG query docs (.ok []) o).source = .MITC ∧
    (searchWithRAG query docs (.ok []) o).confidence = 40 ∧
    (searchWithRAG query docs (.ok []) o).sourceDocuments = some (r :: rs) ∧
    ∀ l, (searchWithRAG query docs (.ok []) o).sourceDocuments = some l →
      1 ≤ l.length := by
  have hq : qlt (mkRat 3 20) r.similarity = true := by
    rw [qlt_iff, hsim, mkRat_eq]
    norm_num
  have hconf : qint (jsRound (qmul r.similarity 100)) = 40 := by
    rw [hsim, show qmul (2/5 : ℚ) 100 = (40:ℚ) from by rw [qmul_eq]; norm_num,
      show jsRound (40:ℚ) = 40 from by decide, qint_eq]
    norm_num
  have hred : searchWithRAG query docs (.ok []) o =
      { text := formatMITCResponse
          (joinSep "\n\n" (((r :: rs).take 3).map (fun x =>
            "**" ++ orDefault x.chunk.metadata.cardName "Document" ++ "** (" ++
            orDefault x.chunk.metadata.bankName "Bank" ++ "): " ++ x.chunk.content)))
          query (r :: rs)
        source := .MITC
        confidence := qint (jsRound (qmul r.similarity 100))
        sourceDocuments := some (r :: rs)
        mappingInfo := some
          { category := (mapQuery fuseSearch query).category
            matchedKeywords := (mapQuery fuseSearch query).matchedKeywords
            confidence := (mapQuery fuseSearch query).confidence } } := by
    simp [searchWithRAG, hsearch, hq]
  rw [hred]
  exact ⟨rfl, hconf, rfl, fun l hl => by cases hl; simp⟩

set_option maxRecDepth 400000 in
set_option maxHeartbeats 2000000 in
/-- C2 witness: an index holding only `testDoc`, the query `"hello"`,
an empty API outcome, and a generative adapter that is never
consulted. -/
theorem rag_document_tier_witness :
    (searchWithRAG "hello" [testDoc] (.ok []) (.ok ⟨"t", 50⟩)).source = .MITC ∧
    (searchWithRAG "hello" [testDoc] (.ok []) (.ok ⟨"t", 50⟩)).confidence = 40 ∧
    (searchWithRAG "hello" [testDoc] (.ok []) (.ok ⟨"t", 50⟩)).sourceDocuments =
      some [⟨testDoc, 2/5⟩] ∧
    ∀ l, (searchWithRAG "hello" [testDoc] (.ok []) (.ok ⟨"t", 50⟩)).sourceDocuments =
      some l → 1 ≤ l.length :=
  rag_document_tier "hello" [testDoc] (.ok ⟨"t", 50⟩) ⟨testDoc, 2/5⟩ []
    (by with_unfolding_all decide) rfl

set_option maxRecDepth 400000 in
set_option maxHeartbeats 2000000 in
/-- C3 (counterexample): with both earlier tiers empty, a generative
adapter value of `20` does **not** come back unchanged: the source
clamps the response confidence to `Math.max(confidence, 40)`, so the
returned confidence is `40 ≠ 20`. -/
theorem rag_generative_confidence_counterexample :
    (searchWithRAG "hello" [] (.ok []) (.ok ⟨"t", 20⟩)).source = .OpenAI ∧
    (searchWithRAG "hello" [] (.ok []) (.ok ⟨"t", 20⟩)).confidence ≠ 20 := by
  exact ⟨by decide, by decide⟩

/-- C3 (amended): when the API tier yields zero records and the
top similarity of the document tier does not exceed its floor,
`searchWithRAG` returns source `OpenAI` with confidence
`max(adapter-reported value, 40)` — which equals the adapter value
exactly when that value is at least 40. -/
theorem rag_generative_confidence (query : String) (docs : List DocumentChunk)
    (resp : OpenAIResponse)
    (hmitc : mitcGate (search query 4 docs) = false) :
    (searchWithRAG query docs (.ok []) (.ok resp)).source = .OpenAI ∧
    (searchWithRAG query docs (.ok []) (.ok resp)).confidence =
      max resp.confidence 40 := by
  rw [rag_to_generative query docs _ hmitc]
  exact ⟨rfl, jsMax_eq resp.confidence 40⟩

/-- C3 witness: an empty index and an adapter value of `70 ≥ 40`, which
the response carries unchanged (`max 70 40 = 70`). -/
theorem rag_generative_confidence_witness :
    (searchWithRAG "hi" [] (.ok []) (.ok ⟨"t", 70⟩)).source = .OpenAI ∧
    (searchWithRAG "hi" [] (.ok []) (.ok ⟨"t", 70⟩)).confidence =
      max (70:ℚ) 40 :=
  rag_generative_confidence "hi" [] ⟨"t", 70⟩ (by decide)

/-- C4: a rejected adapter call inside `searchWithRAG` never escapes:
a throwing card-adapter call, and a throwing generative call on the
path that reaches it, both produce the fixed apology response, whose
source tag is `OpenAI` and whose confidence `20` lies in `[20, 30]`
(that `searchWithRAG` always returns a `RAGResponse` — never an
exception — is structural: its result type is total). -/
theorem rag_throw_apology :
    (∀ (query : String) (docs : List DocumentChunk) (e : String)
        (o : Except String OpenAIResponse),
      searchWithRAG query docs (.error e) o = apologyResponse) ∧
    (∀ (query : String) (docs : List DocumentChunk) (e : String),
      mitcGate (search query 4 docs) = false →
      searchWithRAG query docs (.ok []) (.error e) = apologyResponse) ∧
    apologyResponse.source = .OpenAI ∧
    apologyResponse.text = apologyText ∧
    (20:ℚ) ≤ apologyResponse.confidence ∧ apologyResponse.confidence ≤ 30 := by
  refine ⟨fun query docs e o => rfl, fun query docs e hm => ?_, rfl, rfl,
    by norm_num [apologyResponse], by norm_num [apologyResponse]⟩
  rw [rag_to_generative query docs _ hm]
  rfl

/-- C4 witness: the generative tier rejecting after an empty API and an
empty index. -/
theorem rag_throw_apology_witness :
    searchWithRAG "hi" [] (.ok []) (.error "network down") = apologyResponse :=
  rag_throw_apology.2.1 "hi" [] "network down" (by decide)

/-- C9: the pipeline is deterministic — two runs of `searchWithRAG`
against an unchanged document index and identical external adapter
outcomes produce the same source tag and the same sequence of chunk
ids in `sourceDocuments`.  The embedding of the pipeline is a pure
function (the sorts in the source are stable, its `Map` iteration order is
insertion order, and it uses no randomness or clock), so equal inputs
give equal runs. -/
theorem rag_two_runs_equal (query : String)
    (docs docs' : List DocumentChunk)
    (api api' : Except String (List CreditCard))
    (o o' : Except String OpenAIResponse)
    (hdocs : docs = docs') (hapi : api = api') (ho : o = o') :
    (searchWithRAG query docs api o).source =
      (searchWithRAG query docs' api' o').source ∧
    ((searchWithRAG query docs api o).sourceDocuments.getD []).map
        (fun r => r.chunk.id) =
      ((searchWithRAG query docs' api' o').sourceDocuments.getD []).map
        (fun r => r.chunk.id) := by
  subst hdocs
  subst hapi
  subst ho
  exact ⟨rfl, rfl⟩

/-- C9 witness: two identical concrete runs. -/
theorem rag_two_runs_equal_witness :
    (searchWithRAG "hi" [testDoc] (.ok []) (.ok ⟨"t", 50⟩)).source =
      (searchWithRAG "hi" [testDoc] (.ok []) (.ok ⟨"t", 50⟩)).source ∧
    ((searchWithRAG "hi" [testDoc] (.ok []) (.ok ⟨"t", 50⟩)).sourceDocuments.getD
        []).map (fun r => r.chunk.id) =
      ((searchWithRAG "hi" [testDoc] (.ok []) (.ok ⟨"t", 50⟩)).sourceDocuments.getD
        []).map (fun r => r.chunk.id) :=
  rag_two_runs_equal "hi" [testDoc] [testDoc] (.ok []) (.ok [])
    (.ok ⟨"t", 50⟩) (.ok ⟨"t", 50⟩) rfl rfl rfl

/-- C5: `search(query, topK)` returns exactly the chunks whose score
exceeds the `0.1` floor, in descending score order with ties in
insertion order, truncated to `topK`:

* every returned result carries the exact score of its chunk, and that
  score is strictly above `0.1` (hence no at-or-below-floor chunk
  appears, `NaN`-scored chunks included);
* the returned list is sorted by non-increasing similarity;
* its length is `min topK` (number of chunks above the floor) — the
  truncation is exact;
* it is the `topK`-prefix of a full ranking that is a permutation of
  the floor-filtered list, is sorted, and — stability — agrees with
  the floor-filtered list on the sublist of results at any fixed
  score. -/
theorem search_spec (query : String) (topK : Nat) (docs : List DocumentChunk) :
    (∀ r ∈ search query topK docs,
      computeAdvancedSimilarity query r.chunk.content r.chunk.metadata =
        some r.similarity ∧ (1/10 : ℚ) < r.similarity) ∧
    List.Pairwise (fun a b => b.similarity ≤ a.similarity)
      (search query topK docs) ∧
    (search query topK docs).length =
      min topK (passingResults query docs).length ∧
    ∃ full, search query topK docs = full.take topK ∧
      List.Perm full (passingResults query docs) ∧
      List.Pairwise (fun a b => b.similarity ≤ a.similarity) full ∧
      ∀ s : ℚ, full.filter (fun r => decide (r.similarity = s)) =
        (passingResults query docs).filter (fun r => decide (r.similarity = s)) := by
  have hseq : search query topK docs =
      (List.insertionSort simDescLe (passingResults query docs)).take topK := rfl
  have hperm : List.Perm (List.insertionSort simDescLe (passingResults query docs))
      (passingResults query docs) := List.perm_insertionSort _ _
  have hsorted : List.Pairwise simDescLe
      (List.insertionSort simDescLe (passingResults query docs)) :=
    List.sorted_insertionSort _ _
  have hs2 : List.Pairwise (fun a b => b.similarity ≤ a.similarity)
      (List.insertionSort simDescLe (passingResults query docs)) :=
    hsorted.imp (fun hab => qle_iff.mp hab)
  refine ⟨?_, ?_, ?_, List.insertionSort simDescLe (passingResults query docs),
    rfl, hperm, hs2, ?_⟩
  · intro r hr
    rw [hseq] at hr
    have hrfull := (List.take_sublist _ _).subset hr
    have hrp := hperm.subset hrfull
    exact ⟨(mem_passingResults hrp).2.1, (mem_passingResults hrp).2.2⟩
  · rw [hseq]
    exact List.Pairwise.sublist (List.take_sublist _ _) hs2
  · rw [hseq, List.length_take, hperm.length_eq]
  · intro s
    apply filter_insertionSort
    intro x y hx hy
    rw [decide_eq_true_eq] at hx hy
    rw [simDescLe, qle_iff, hx, hy]

set_option maxRecDepth 400000 in
set_option maxHeartbeats 2000000 in
/-- C5 witness: the floor-soundness conjunct applied to the concrete
single-document index. -/
theorem search_spec_witness :
    computeAdvancedSimilarity "hello" testDoc.content testDoc.metadata =
      some (2/5 : ℚ) ∧ (1/10 : ℚ) < (2/5 : ℚ) :=
  (search_spec "hello" 4 [testDoc]).1 ⟨testDoc, 2/5⟩
    (by with_unfolding_all decide)
